import Mathlib

/-
Verification development for the host-side GPU rental agent
(`agent.py`, `api_client.py`, `clean_manager.py`).

The Python sources are shallowly embedded below:
 - externally supplied task fields are modelled with `PyVal` (a small model
   of the JSON-ish Python values the agent receives) or with typed
   `Option` fields where the code only tests presence/truthiness;
 - the docker engine is modelled as an explicit `Engine` state (containers,
   volumes, locally bound ports, images) threaded through the operations;
 - Python exceptions are modelled with `Except`: a raised error is
   `.error`, and the catch-all handler at the Task Processor boundary maps
   it to `none` (task dropped);
 - Python `str.strip`, `str.lower` and `int(...)` are re-implemented over
   `String.data` by structural recursion so every definition evaluates
   inside the kernel.
-/

namespace GpuAgent

/-! ## Python value and truthiness model -/

/-- Model of the Python/JSON values carried by task fields: `None`, an
integer, a string, or a (possibly nested) list.  Python tuples are modelled
as lists (the code treats `(list, tuple)` uniformly). -/
inductive PyVal where
  | vNone : PyVal
  | vInt : Int → PyVal
  | vStr : String → PyVal
  | vList : List PyVal → PyVal

/-- Python truthiness, `bool(v)`: `None`, `0`, `""` and `[]` are falsy. -/
def pyTruthy : PyVal → Bool
  | .vNone => false
  | .vInt n => n != 0
  | .vStr s => s != ""
  | .vList xs => !xs.isEmpty

/-- Characters Python `str.strip()` removes. -/
def isPySpace (c : Char) : Bool :=
  c == ' ' || c == '\t' || c == '\n' || c == '\r'

/-- Drop leading whitespace characters. -/
def dropLeadSpace : List Char → List Char
  | [] => []
  | c :: cs => if isPySpace c then dropLeadSpace cs else c :: cs

/-- Python `s.strip()`: remove leading and trailing whitespace. -/
def pyStrip (s : String) : String :=
  String.mk ((dropLeadSpace ((dropLeadSpace s.data).reverse)).reverse)

/-- Python `s.lower()` (ASCII case folding suffices for the operation names
the agent compares against). -/
def pyLower (s : String) : String :=
  String.mk (s.data.map Char.toLower)

/-- Accumulate decimal digits; `none` as soon as a non-digit appears. -/
def digitsVal : List Char → Option Nat
  | [] => none
  | cs => go cs 0
where
  go : List Char → Nat → Option Nat
    | [], acc => some acc
    | c :: cs, acc => if c.isDigit then go cs (acc * 10 + (c.toNat - 48)) else none

/-- Python `int(s)` on a string: an optional minus sign followed by decimal
digits; any other shape raises, modelled as `none`.  (Python also tolerates
surrounding whitespace, a `+` sign and `_` separators; those variants are
immaterial to the claims.) -/
def pyIntOfString (s : String) : Option Int :=
  match s.data with
  | '-' :: rest => (digitsVal rest).map (fun n => -(n : Int))
  | cs => (digitsVal cs).map (fun n => (n : Int))

/-- Python `int(v)` on an arbitrary value: integers pass through, strings
are parsed, everything else (`None`, lists) raises, modelled as `none`. -/
def pyToInt : PyVal → Option Int
  | .vInt n => some n
  | .vStr s => pyIntOfString s
  | _ => none

/-- Truthiness of an optional string (`None` and `""` are falsy). -/
def strTruthy : Option String → Bool
  | none => false
  | some s => s != ""

/-- Python `a or b` on optional strings: `b` when `a` is falsy. -/
def strOr (a b : Option String) : Option String :=
  if strTruthy a then a else b

/-- Truthiness of an optional integer (`None` and `0` are falsy). -/
def intOptTruthy : Option Int → Bool
  | none => false
  | some n => n != 0

/-- Python `f"{v}"` for an optional string (`None` prints as `"None"`). -/
def optStr (o : Option String) : String :=
  match o with
  | some s => s
  | none => "None"

/-- Python `f"{v}"` for an optional integer. -/
def optIntStr (o : Option Int) : String :=
  match o with
  | some n => toString n
  | none => "None"

/-! ## Resource Translator (agent.py, `process_task` lines 364-409) -/

/-- Is the value a Python list with at least one element?
Mirrors `isinstance(gpu_indices, list) and len(gpu_indices) > 0`. -/
def isListNonempty : PyVal → Bool
  | .vList xs => !xs.isEmpty
  | _ => false

/-- The `",".join(str(int(i)) for i in gpu_indices)` expression: `none` when
some element fails `int(...)` (the exception path). -/
def joinInts (xs : List PyVal) : Option String :=
  match xs.mapM pyToInt with
  | some ns => some (String.intercalate "," (ns.map toString))
  | none => none

/-- GPU device selector derivation (agent.py lines 364-374):
`gpu_required = task_data.get('gpu_required', 0) or 0` followed by
`if gpu_required and isinstance(gpu_indices, list) and len(...) > 0:` with a
`try/except` that falls back to `"all"`, an `elif gpu_required: "all"`, else
`None`.  Note the code tests Python truthiness of `gpu_required`, not
`gpu_required > 0`. -/
def gpusParam (gpuRequired : Option Int) (gpuIndices : Option PyVal) : Option String :=
  let req : Int := gpuRequired.getD 0
  let idx : PyVal :=
    match gpuIndices with
    | some v => if pyTruthy v then v else .vList []
    | none => .vList []
  if req != 0 && isListNonempty idx then
    match joinInts (match idx with | .vList xs => xs | _ => []) with
    | some s => some s
    | none => some "all"
  else if req != 0 then some "all"
  else none

/-- Is the value a two-element Python list/tuple?  Mirrors
`isinstance(r, (list, tuple)) and len(r) == 2`. -/
def isPair2 : PyVal → Bool
  | .vList [_, _] => true
  | _ => false

/-- The `"start-end"` string for a two-element pair whose members both
survive `int(...)`; `none` when either raises. -/
def goodPair : PyVal → Option String
  | .vList [a, b] =>
    (match pyToInt a, pyToInt b with
     | some s, some e => some (toString s ++ "-" ++ toString e)
     | _, _ => none)
  | _ => none

/-- The range-collecting loop of agent.py lines 381-386: two-element pairs
contribute `"start-end"`, other elements are skipped, and a parse failure
inside a two-element pair raises, aborting the whole collection (`none`). -/
def buildRanges : List PyVal → Option (List String)
  | [] => some []
  | r :: rest =>
    if isPair2 r then
      match goodPair r with
      | some s => (buildRanges rest).map (fun l => s :: l)
      | none => none
    else buildRanges rest

/-- CPU-affinity (cpuset) derivation (agent.py lines 376-389):
`cpu_allocated_ranges or []`, then the guarded loop under `try/except` with
`cpuset_cpus = None` on exception, and a comma-join when at least one range
was collected. -/
def cpusetCpus (v : Option PyVal) : Option String :=
  let cr : PyVal :=
    match v with
    | some w => if pyTruthy w then w else .vList []
    | none => .vList []
  match cr with
  | .vList xs =>
    if !xs.isEmpty then
      match buildRanges xs with
      | some rs => if !rs.isEmpty then some (String.intercalate "," rs) else none
      | none => none
    else none
  | _ => none

/-- RAM/storage parsing (agent.py lines 392-401):
`int(field) if field is not None else None`, with the parse failure caught
to `None`. -/
def pyIntField (v : Option PyVal) : Option Int :=
  match v with
  | none => none
  | some w => pyToInt w

/-- Shared-memory size derivation (agent.py lines 404-409):
`max(1, int(memory_gb / 2))` when the parsed memory is present and positive,
otherwise unset.  For positive `m`, Python `int(m / 2)` is floor division,
which coincides with Lean `Int` division. -/
def shmSizeGb (memGb : Option Int) : Option Int :=
  match memGb with
  | some m => if m > 0 then some (max 1 (m / 2)) else none
  | none => none

/-! ## Container engine state (clean_manager.py) -/

/-- The resource/credential options `process_task` forwards to the docker
invocation.  They are recorded on the created container (the engine model
keeps the `docker run` parameters) but never alter lifecycle decisions. -/
structure RunOpts where
  gpus : Option String
  cpuset : Option String
  memGb : Option Int
  memSwapGb : Option Int
  shmGb : Option Int
  storageGb : Option Int
  sshPassword : String
  jupyterToken : String
  sshUsername : String
deriving DecidableEq

/-- One container known to the engine: its name, the engine-assigned id,
whether it is running, and the `docker run` parameters it was created
with. -/
structure ContainerRec where
  name : String
  cid : String
  running : Bool
  ports : List (Int × Int)
  opts : RunOpts
deriving DecidableEq

/-- The docker-engine state visible to the agent: containers, named
volumes, the host ports that would fail the local bind test
(`_port_free`), images available locally and images a `docker pull` would
succeed for, plus a counter from which fresh container ids are drawn. -/
structure Engine where
  containers : List ContainerRec
  volumes : List String
  boundPorts : List Int
  localImages : List String
  pullableImages : List String
  nextCid : Nat
deriving DecidableEq

/-- Mirrors `_running(name)`: is a container with this name in `docker ps`? -/
def isRunningE (e : Engine) (name : String) : Bool :=
  e.containers.any (fun c => c.name == name && c.running)

/-- Mirrors `_exists(name)`: is a container with this name in `docker ps -a`? -/
def existsE (e : Engine) (name : String) : Bool :=
  e.containers.any (fun c => c.name == name)

/-- Engine `docker start name`: mark the named container running. -/
def dockerStartNamed (e : Engine) (name : String) : Engine :=
  { e with containers :=
      e.containers.map (fun c => if c.name == name then { c with running := true } else c) }

/-- Mirrors `_docker_images_has`: the image is present locally, or a pull succeeds
(making it local), or neither (`false`). -/
def dockerImagesHas (e : Engine) (img : String) : Engine × Bool :=
  if img ∈ e.localImages then (e, true)
  else if img ∈ e.pullableImages then
    ({ e with localImages := img :: e.localImages }, true)
  else (e, false)

/-- Engine `docker volume create v` (idempotent, always succeeds). -/
def volumeCreate (e : Engine) (v : String) : Engine :=
  if v ∈ e.volumes then e else { e with volumes := v :: e.volumes }

/-- Engine `docker run -d --name name ...`: create a fresh container, running,
with an engine-assigned id, recording ports and options. -/
def dockerRunNamed (e : Engine) (name : String) (ports : List (Int × Int))
    (opts : RunOpts) : Engine × String :=
  let cid := "cid_" ++ toString e.nextCid
  ({ e with
      containers := e.containers ++
        [{ name := name, cid := cid, running := true, ports := ports, opts := opts }],
      nextCid := e.nextCid + 1 }, cid)

/-- The default image from `Settings`. -/
def settingsImage : String := "grigoriybased/gpunix-pytorch:latest"

/-- The errors the start paths can raise (`RuntimeError` in the source):
ports in use (carrying the offending host ports whose string forms are
joined into the message) or an unavailable image. -/
inductive StartErr where
  | portsInUse : List Int → StartErr
  | imageUnavailable : String → StartErr
deriving DecidableEq

/-- Mirrors `_assert_ports_free(ssh_port, jup_port)` (clean_manager.py lines
89-96): collect every bound port of the two, raise listing all of them. -/
def assertPortsFree (e : Engine) (sshPort jupPort : Int) : Except StartErr Unit :=
  let bad := (if sshPort ∈ e.boundPorts then [sshPort] else []) ++
             (if jupPort ∈ e.boundPorts then [jupPort] else [])
  if bad.isEmpty then .ok () else .error (.portsInUse bad)

/-- Mirrors `_assert_port_mapping_free(port_mapping)` (clean_manager.py lines
98-105): collect every bound host port of the mapping, raise listing all of
them. -/
def assertPortMappingFree (e : Engine) (pm : List (Int × Int)) : Except StartErr Unit :=
  let bad := (pm.map Prod.fst).filter (fun p => decide (p ∈ e.boundPorts))
  if bad.isEmpty then .ok () else .error (.portsInUse bad)

/-- The shared creation tail of both start paths: resolve the image
(`image or settings.image`), verify/pull it (raise `imageUnavailable`
otherwise), create the `<name>-work` volume, then `docker run`. -/
def createAndRunE (e : Engine) (name : String) (ports : List (Int × Int))
    (image : String) (opts : RunOpts) : Except StartErr (Engine × Option String) :=
  let imageToRun := if image == "" then settingsImage else image
  let ih := dockerImagesHas e imageToRun
  if !ih.2 then .error (.imageUnavailable imageToRun)
  else
    let e2 := volumeCreate ih.1 (name ++ "-work")
    let r := dockerRunNamed e2 name ports opts
    .ok (r.1, some r.2)

/-- Mirrors `ContainerManager.start` (clean_manager.py lines 107-194, legacy
two-port mode): already running ⇒ log and plain `return` (Python `None`,
engine untouched); exists but stopped ⇒ `docker start`, plain `return`;
otherwise assert the two ports free, then create and run with the port pair
`ssh_port→22, jup_port→8888`. -/
def startLegacyE (e : Engine) (name : String) (sshPort jupPort : Int)
    (image : String) (opts : RunOpts) : Except StartErr (Engine × Option String) :=
  if isRunningE e name then .ok (e, none)
  else if existsE e name then .ok (dockerStartNamed e name, none)
  else
    match assertPortsFree e sshPort jupPort with
    | .error err => .error err
    | .ok _ => createAndRunE e name [(sshPort, 22), (jupPort, 8888)] image opts

/-- Mirrors `ContainerManager.start_with_port_mapping` (clean_manager.py lines
196-308): already running ⇒ log and plain `return` (Python `None`, engine
untouched); exists but stopped ⇒ `docker start`, plain `return`; otherwise
assert every host port of the mapping free, then create and run with the
full mapping. -/
def startWithPortMappingE (e : Engine) (name : String) (pm : List (Int × Int))
    (image : String) (opts : RunOpts) : Except StartErr (Engine × Option String) :=
  if isRunningE e name then .ok (e, none)
  else if existsE e name then .ok (dockerStartNamed e name, none)
  else
    match assertPortMappingFree e pm with
    | .error err => .error err
    | .ok _ => createAndRunE e name pm image opts

/-! ## stop_by_id / remove_by_id (clean_manager.py lines 341-376) -/

/-- Classified outcome of a docker CLI invocation as `stop_by_id` /
`remove_by_id` inspect it: exit code zero, a failure whose combined
stderr/stdout contains `"No such container"`, one containing
`"is not running"`, some other engine failure message, or a raised
exception around the subprocess call. -/
inductive EngineReply where
  | ok : EngineReply
  | errNoSuchContainer : EngineReply
  | errNotRunning : EngineReply
  | errOther : String → EngineReply
  | raised : EngineReply
deriving DecidableEq

/-- Mirrors the `stop_by_id` result classification: success on exit code zero, on
`"No such container"` and on `"is not running"`; `False` on any other
failure or exception.  Total, so it never propagates an exception. -/
def stopByIdReply : EngineReply → Bool
  | .ok => true
  | .errNoSuchContainer => true
  | .errNotRunning => true
  | .errOther _ => false
  | .raised => false

/-- Mirrors the `remove_by_id` result classification: success on exit code zero and on
`"No such container"`; `False` on any other failure or exception.  Total,
so it never propagates an exception. -/
def removeByIdReply : EngineReply → Bool
  | .ok => true
  | .errNoSuchContainer => true
  | .errNotRunning => false
  | .errOther _ => false
  | .raised => false

/-- Lifecycle state of one container identifier as the engine sees it. -/
inductive ContainerState where
  | running : ContainerState
  | stopped : ContainerState
  | absent : ContainerState
deriving DecidableEq

/-- Modelled docker engine behaviour for `docker stop <id>` (external
collaborator, per section 6 of the spec the engine reports distinguishable
not-found / not-running conditions): stopping a running container succeeds;
a stopped one reports not-running; an absent one reports
`"No such container"`. -/
def dockerStopReply : ContainerState → EngineReply
  | .running => .ok
  | .stopped => .errNotRunning
  | .absent => .errNoSuchContainer

/-- Modelled docker engine behaviour for `docker rm <id>` (without `-f`):
removing a running container is refused with a genuine error; a stopped one
is removed; an absent one reports `"No such container"`. -/
def dockerRmReply : ContainerState → EngineReply
  | .running => .errOther "cannot remove a running container"
  | .stopped => .ok
  | .absent => .errNoSuchContainer

/-- Look a container up by engine id or by name (docker accepts both). -/
def findContainer (e : Engine) (cid : String) : Option ContainerRec :=
  e.containers.find? (fun c => c.cid == cid || c.name == cid)

/-- The lifecycle state of an identifier in the engine. -/
def containerStateOf (e : Engine) (cid : String) : ContainerState :=
  match findContainer e cid with
  | some c => if c.running then .running else .stopped
  | none => .absent

/-- Mirrors `ContainerManager.stop_by_id` against the engine state: run
`docker stop`, classify the reply; a running container becomes stopped. -/
def stopByIdE (e : Engine) (cid : String) : Engine × Bool :=
  let st := containerStateOf e cid
  let e1 :=
    match st with
    | .running =>
      { e with containers :=
          e.containers.map (fun c =>
            if c.cid == cid || c.name == cid then { c with running := false } else c) }
    | _ => e
  (e1, stopByIdReply (dockerStopReply st))

/-- Mirrors `ContainerManager.remove_by_id` against the engine state: run
`docker rm`, classify the reply; a stopped container is removed. -/
def removeByIdE (e : Engine) (cid : String) : Engine × Bool :=
  let st := containerStateOf e cid
  let e1 :=
    match st with
    | .stopped =>
      { e with containers :=
          e.containers.filter (fun c => !(c.cid == cid || c.name == cid)) }
    | _ => e
  (e1, removeByIdReply (dockerRmReply st))

/-! ## Task descriptor (inputs of `Agent.process_task`) -/

/-- The `task_data` dictionary fields the Task Processor reads.  Absent
keys (and JSON `null`, which `dict.get` also surfaces as `None`) are
`none`. -/
structure TaskData where
  operation : Option String := none
  container_id : Option String := none
  container_name : Option String := none
  docker_image : Option String := none
  gpu_required : Option Int := none
  gpu_enabled_indices : Option PyVal := none
  cpu_allocated_ranges : Option PyVal := none
  ram_allocated_gb : Option PyVal := none
  storage_allocated_gb : Option PyVal := none

/-- The `container_info` dictionary fields the Task Processor reads.  The
port mapping `{host_port: container_port}` is modelled as an ordered
association list, matching Python dict iteration order. -/
structure ContainerInfo where
  container_id : Option String := none
  container_name : Option String := none
  ssh_username : Option String := none
  ssh_password : Option String := none
  ssh_port : Option Int := none
  ssh_host : Option String := none
  ssh_command : Option String := none
  port_mapping : Option (List (Int × Int)) := none

/-- A task as `poll_for_tasks` assembles it before dispatch: the loop only
dispatches when `task_id` is present, so `id` (rendered to the string used
in `f"task_{task_id}"`) is total here. -/
structure Task where
  id : String
  task_data : TaskData := {}
  container_info : ContainerInfo := {}

/-- Python `(task_data.get('operation') or '').strip().lower()`. -/
def normalizeOp (o : Option String) : String :=
  pyLower (pyStrip (o.getD ""))

/-- Python `operation in {'stop', 'stop_remove'}`. -/
def isControlOp (op : String) : Bool :=
  op == "stop" || op == "stop_remove"

/-- The result dictionary `process_task` returns.  Keys a given path does
not put in its dictionary are modelled by their defaults
(`none` / `0` / `false`). -/
structure TaskResult where
  status : String
  container_id : Option String := none
  container_name : Option String := none
  error_message : Option String := none
  ssh_port : Option Int := none
  ssh_host : Option String := none
  ssh_command : Option String := none
  ssh_username : Option String := none
  ssh_password : Option String := none
  cpu_cpuset : Option String := none
  ram_gb : Option Int := none
  gpu_count : Int := 0
  gpu_devices : Option String := none
  storage_gb : Option Int := none
  gpu_support : Bool := false
deriving DecidableEq

/-- The control-path failure dictionary for a missing container id
(agent.py lines 310-315): `container_id` is the empty string. -/
def failedMissingCid (cname : Option String) : TaskResult :=
  { status := "failed"
    container_id := some ""
    container_name := cname
    error_message := some "Missing container_id in control task" }

/-- The control-path success dictionary (agent.py lines 332-336). -/
def controlCompleted (cid : String) (cname : Option String) : TaskResult :=
  { status := "completed"
    container_id := some cid
    container_name := cname }

/-- The aggregated control-path error list (agent.py lines 338-341). -/
def controlErrs (op : String) (stopOk removeOk : Bool) : List String :=
  (if !stopOk then ["stop failed"] else []) ++
  (if op == "stop_remove" && !removeOk then ["remove failed"] else [])

/-- The control-path failure dictionary (agent.py lines 347-352), with
`", ".join(err) or 'unknown error'`. -/
def controlFailed (op : String) (cid : String) (cname : Option String)
    (stopOk removeOk : Bool) : TaskResult :=
  { status := "failed"
    container_id := some cid
    container_name := cname
    error_message := some
      (if (controlErrs op stopOk removeOk).isEmpty then "unknown error"
       else String.intercalate ", " (controlErrs op stopOk removeOk)) }

/-- The keyword arguments `process_task` passes to the container manager
(both modes): translated resources plus credentials, with
`memory_swap_gb = memory_gb` and the Jupyter token reusing the SSH
password. -/
def runOptsOf (t : Task) : RunOpts :=
  { gpus := gpusParam t.task_data.gpu_required t.task_data.gpu_enabled_indices
    cpuset := cpusetCpus t.task_data.cpu_allocated_ranges
    memGb := pyIntField t.task_data.ram_allocated_gb
    memSwapGb := pyIntField t.task_data.ram_allocated_gb
    shmGb := shmSizeGb (pyIntField t.task_data.ram_allocated_gb)
    storageGb := pyIntField t.task_data.storage_allocated_gb
    sshPassword := t.container_info.ssh_password.getD ""
    jupyterToken := t.container_info.ssh_password.getD ""
    sshUsername :=
      if strTruthy t.container_info.ssh_username then
        t.container_info.ssh_username.getD ""
      else "root" }

/-- The control path of `process_task` (agent.py lines 299-352). -/
def controlPath (t : Task) (e : Engine) (op : String) :
    Except StartErr (Engine × Option TaskResult) :=
  let cidOpt := strOr t.task_data.container_id t.container_info.container_id
  let cname := strOr t.task_data.container_name t.container_info.container_name
  if !strTruthy cidOpt then .ok (e, some (failedMissingCid cname))
  else
    let cid := cidOpt.getD ""
    let p1 := stopByIdE e cid
    let p2 := if op == "stop_remove" then removeByIdE p1.1 cid else (p1.1, true)
    if p1.2 && p2.2 then .ok (p2.1, some (controlCompleted cid cname))
    else .ok (p2.1, some (controlFailed op cid cname p1.2 p2.2))

/-- The result dictionary of the port-mapping provisioning path (agent.py
lines 466-484).  `ssh_command` uses Python truthiness of the located SSH
host port, falling back to `None` when no mapping entry targets container
port 22. -/
def pmResult (t : Task) (name : String) (cidOpt : Option String)
    (sshPortResult : Option Int) : TaskResult :=
  { status := "running"
    container_id := cidOpt
    container_name := some name
    ssh_port := sshPortResult
    ssh_host := t.container_info.ssh_host
    ssh_command :=
      if intOptTruthy sshPortResult then
        some (t.container_info.ssh_command.getD
          ("ssh root@" ++ optStr t.container_info.ssh_host ++ " -p " ++
           optIntStr sshPortResult))
      else none
    ssh_username := some (runOptsOf t).sshUsername
    ssh_password := t.container_info.ssh_password
    cpu_cpuset := cpusetCpus t.task_data.cpu_allocated_ranges
    ram_gb := pyIntField t.task_data.ram_allocated_gb
    gpu_count := t.task_data.gpu_required.getD 0
    gpu_devices := gpusParam t.task_data.gpu_required t.task_data.gpu_enabled_indices
    storage_gb := pyIntField t.task_data.storage_allocated_gb
    gpu_support := strTruthy (gpusParam t.task_data.gpu_required t.task_data.gpu_enabled_indices) }

/-- The port-mapping provisioning path (agent.py lines 421-484): require a
truthy SSH password (else drop the task, `None`), derive the container name
`task_<id>`, start with the full mapping, then locate the first mapping
entry whose container port is 22 for the result payload. -/
def startPmPath (t : Task) (e : Engine) (pm : List (Int × Int)) :
    Except StartErr (Engine × Option TaskResult) :=
  if !strTruthy t.container_info.ssh_password then .ok (e, none)
  else
    let name := "task_" ++ t.id
    match startWithPortMappingE e name pm (t.task_data.docker_image.getD "") (runOptsOf t) with
    | .error err => .error err
    | .ok res =>
      let sshPortResult : Option Int := (pm.find? (fun hc => hc.2 == 22)).map Prod.fst
      .ok (res.1, some (pmResult t name res.2 sshPortResult))

/-- The result dictionary of the legacy provisioning path (agent.py lines
534-551). -/
def legacyResult (t : Task) (name : String) (cidOpt : Option String)
    (sshPort : Int) : TaskResult :=
  { status := "running"
    container_id := cidOpt
    container_name := some name
    ssh_port := some sshPort
    ssh_host := t.container_info.ssh_host
    ssh_command := some (t.container_info.ssh_command.getD
      ("ssh root@" ++ optStr t.container_info.ssh_host ++ " -p " ++ toString sshPort))
    ssh_username := some (runOptsOf t).sshUsername
    ssh_password := t.container_info.ssh_password
    cpu_cpuset := cpusetCpus t.task_data.cpu_allocated_ranges
    ram_gb := pyIntField t.task_data.ram_allocated_gb
    gpu_count := t.task_data.gpu_required.getD 0
    gpu_devices := gpusParam t.task_data.gpu_required t.task_data.gpu_enabled_indices
    storage_gb := pyIntField t.task_data.storage_allocated_gb
    gpu_support := strTruthy (gpusParam t.task_data.gpu_required t.task_data.gpu_enabled_indices) }

/-- The legacy provisioning path (agent.py lines 486-551): require a truthy
SSH password and SSH port (`not all([...])` drops the task, `None`), set
the Jupyter port to `ssh_port + 1`, derive the container name `task_<id>`,
and start in two-port mode. -/
def legacyPath (t : Task) (e : Engine) : Except StartErr (Engine × Option TaskResult) :=
  if !(strTruthy t.container_info.ssh_password && intOptTruthy t.container_info.ssh_port) then
    .ok (e, none)
  else
    let sshPort := t.container_info.ssh_port.getD 0
    let name := "task_" ++ t.id
    match startLegacyE e name sshPort (sshPort + 1) (t.task_data.docker_image.getD "") (runOptsOf t) with
    | .error err => .error err
    | .ok res => .ok (res.1, some (legacyResult t name res.2 sshPort))

/-- The body of `Agent.process_task` before its catch-all handler: branch
to the control path on a normalized `stop`/`stop_remove` operation;
otherwise require a truthy `docker_image` (else drop, `None`) and branch on
the presence of a truthy (non-empty) `port_mapping` dict. -/
def processTaskCore (t : Task) (e : Engine) : Except StartErr (Engine × Option TaskResult) :=
  let op := normalizeOp t.task_data.operation
  if isControlOp op then controlPath t e op
  else if !strTruthy t.task_data.docker_image then .ok (e, none)
  else
    match t.container_info.port_mapping with
    | some pm => if !pm.isEmpty then startPmPath t e pm else legacyPath t e
    | none => legacyPath t e

/-- Mirrors `Agent.process_task` with its outer `try/except` (agent.py lines
567-573): any raised error is caught, logged, and the task is dropped
(`None`); the errors the model can raise occur before any engine mutation,
so the original engine state is returned. -/
def processTask (t : Task) (e : Engine) : Engine × Option TaskResult :=
  match processTaskCore t e with
  | .ok r => r
  | .error _ => (e, none)

/-! ## Polling loop (api_client.py, `poll_for_tasks` lines 118-248) -/

/-- The outcome of one `session.post` poll as the loop discriminates it:
a non-200 HTTP status; a 200 whose body carries a nonzero `exception`
code; a 200 with no task; a 200 with a partially populated task
(`invalidTask`); a full task; or a raised `Timeout` / `ConnectionError` /
other exception. -/
inductive PollResponse where
  | httpError : Nat → PollResponse
  | serverException : String → PollResponse
  | noTask : PollResponse
  | invalidTask : PollResponse
  | taskResp : Task → PollResponse
  | timeout : PollResponse
  | connError : PollResponse
  | exn : PollResponse

/-- The constant `max_consecutive_errors` in `poll_for_tasks`. -/
def maxConsecutiveErrors : Nat := 5

/-- The sleep chosen at the bottom of the loop body: 60 seconds at or above
the consecutive-error threshold, 10 seconds below it. -/
def backoffSleep (c : Nat) : Nat :=
  if c ≥ maxConsecutiveErrors then 60 else 10

/-- What one loop iteration produced: the new consecutive-error counter,
the seconds slept before the next poll, the status report handed to
`send_task_status` (if any), and the engine state after processing. -/
structure CycleResult where
  counter : Nat
  sleepSecs : Nat
  reported : Option (String × TaskResult)
  engine : Engine
deriving DecidableEq

/-- One iteration of `poll_for_tasks` with consecutive-error counter `c`.
The server-exception branch increments the counter but does
`time.sleep(10); continue`, bypassing the backoff check at the bottom of
the loop; every other failure branch falls through to the backoff check
with the incremented counter; a no-task poll and a processed task reset the
counter to zero (the return value of `send_task_status` is ignored, so the
reset does not depend on the report transmission succeeding). -/
def pollCycle (e : Engine) (c : Nat) (resp : PollResponse) : CycleResult :=
  match resp with
  | .serverException _ => { counter := c + 1, sleepSecs := 10, reported := none, engine := e }
  | .noTask => { counter := 0, sleepSecs := backoffSleep 0, reported := none, engine := e }
  | .invalidTask =>
    { counter := c + 1, sleepSecs := backoffSleep (c + 1), reported := none, engine := e }
  | .httpError _ =>
    { counter := c + 1, sleepSecs := backoffSleep (c + 1), reported := none, engine := e }
  | .timeout =>
    { counter := c + 1, sleepSecs := backoffSleep (c + 1), reported := none, engine := e }
  | .connError =>
    { counter := c + 1, sleepSecs := backoffSleep (c + 1), reported := none, engine := e }
  | .exn =>
    { counter := c + 1, sleepSecs := backoffSleep (c + 1), reported := none, engine := e }
  | .taskResp t =>
    let pr := processTask t e
    match pr.2 with
    | some res =>
      { counter := 0, sleepSecs := backoffSleep 0, reported := some (t.id, res), engine := pr.1 }
    | none =>
      { counter := c + 1, sleepSecs := backoffSleep (c + 1), reported := none, engine := pr.1 }

/-! ## Spec-side definitions and concrete instances used by the theorems -/

/-- Which poll outcomes increment the consecutive-error counter: transport
errors, non-200 responses, invalid task data, and a dispatched task whose
processing produced no result.  A no-task poll and a server-side exception
body are separated out (the latter increments but bypasses the backoff
check). -/
def countedFailure (e : Engine) (resp : PollResponse) : Bool :=
  match resp with
  | .httpError _ => true
  | .invalidTask => true
  | .timeout => true
  | .connError => true
  | .exn => true
  | .taskResp t => (processTask t e).2.isNone
  | .serverException _ => false
  | .noTask => false

/-- The CPU-affinity derivation as the amended claim words it: every
two-element pair whose members both parse contributes `"start-end"` and the
affinity is the comma-join of those, elements that are not two-element
sequences are skipped — provided every two-element pair parses; if any
two-element pair fails to parse the entire affinity is unset, and it is
also unset when no valid range results or the field is not a list. -/
def cpusetSpec (v : Option PyVal) : Option String :=
  match v with
  | some (.vList xs) =>
    if xs.any (fun r => isPair2 r && (goodPair r).isNone) then none
    else
      if (xs.filterMap goodPair).isEmpty then none
      else some (String.intercalate "," (xs.filterMap goodPair))
  | _ => none

/-- The GPU selector derivation as the amended claim words it: unset when
the (defaulted) required count is zero; otherwise the comma-join of a
supplied non-empty all-parsing index list, and `"all"` when the index list
is absent, empty, not a list, or fails to parse. -/
def gpusSpec (gpuRequired : Option Int) (gpuIndices : Option PyVal) : Option String :=
  if gpuRequired.getD 0 = 0 then none
  else
    match gpuIndices with
    | some (.vList xs) =>
      if xs.isEmpty then some "all"
      else
        match joinInts xs with
        | some s => some s
        | none => some "all"
    | _ => some "all"

/-- A fresh engine: no containers or volumes, no bound host ports, and the
image `"img"` available locally. -/
def e0 : Engine :=
  { containers := [], volumes := [], boundPorts := [], localImages := ["img"],
    pullableImages := [], nextCid := 0 }

/-- An engine whose local bind test fails for host port 5000 only. -/
def eBound : Engine :=
  { containers := [], volumes := [], boundPorts := [5000], localImages := [],
    pullableImages := [], nextCid := 0 }

/-- Run options carrying no resource limits, password `"p"`. -/
def optsP : RunOpts :=
  { gpus := none, cpuset := none, memGb := none, memSwapGb := none, shmGb := none,
    storageGb := none, sshPassword := "p", jupyterToken := "p", sshUsername := "root" }

/-- The engine after launching `task_1` with mapping `5000→22` on `e0`. -/
def eAfterC1 : Engine :=
  { containers := [{ name := "task_1", cid := "cid_0", running := true,
                     ports := [(5000, 22)], opts := optsP }],
    volumes := ["task_1-work"], boundPorts := [], localImages := ["img"],
    pullableImages := [], nextCid := 1 }

/-- A control task (`operation = "stop"`) carrying no container id. -/
def tCtl : Task := { id := "9", task_data := { operation := some "stop" } }

/-- A provisioning task with no `docker_image`. -/
def tNoImg : Task := { id := "3" }

/-- A provisioning task in port-mapping mode whose mapping has no entry
with container port 22. -/
def tPm : Task :=
  { id := "7", task_data := { docker_image := some "img" },
    container_info := { ssh_password := some "p", port_mapping := some [(9000, 8080)] } }

/-- The engine after processing `tPm` on `e0`. -/
def e7After : Engine :=
  { containers := [{ name := "task_7", cid := "cid_0", running := true,
                     ports := [(9000, 8080)], opts := optsP }],
    volumes := ["task_7-work"], boundPorts := [], localImages := ["img"],
    pullableImages := [], nextCid := 1 }

/-! ## Supporting lemmas -/

/-- An element that is not a two-element sequence never yields a range. -/
theorem goodPair_none_of_not_pair (r : PyVal) (h : isPair2 r = false) :
    goodPair r = none := by
  cases r with
  | vNone => rfl
  | vInt n => rfl
  | vStr s => rfl
  | vList xs =>
    rcases xs with _ | ⟨a, _ | ⟨b, _ | ⟨c, rest⟩⟩⟩
    · rfl
    · rfl
    · simp [isPair2] at h
    · rfl

/-- Closed form of the range-collecting loop: it aborts exactly when some
two-element pair fails to parse, and otherwise collects the parses of the
two-element pairs in order. -/
theorem buildRanges_eq (xs : List PyVal) :
    buildRanges xs =
      if xs.any (fun r => isPair2 r && (goodPair r).isNone) then none
      else some (xs.filterMap goodPair) := by
  induction xs with
  | nil => rfl
  | cons r rest ih =>
    cases h1 : isPair2 r with
    | false =>
      have h2 : goodPair r = none := goodPair_none_of_not_pair r h1
      simp [buildRanges, h1, h2, ih]
    | true =>
      cases h2 : goodPair r with
      | none => simp [buildRanges, h1, h2]
      | some s =>
        simp only [buildRanges, h1, if_true, h2, ih, List.any_cons, List.filterMap_cons,
          Option.isNone_some, Bool.and_false, Bool.false_or]
        cases h3 : rest.any (fun r => isPair2 r && (goodPair r).isNone) <;> simp [h3]

/-! ## Claim theorems -/

/-- C4 (confirmed): the derived shared-memory size equals
`max(1, floor(ram/2))` GB whenever `ram_allocated_gb` parses to a positive
integer (RAM = 8 gives 4, RAM = 1 gives 1), and is unset whenever the field
is unset, unparseable, or non-positive. -/
theorem c4_shm_size (ram : Option PyVal) :
    (∀ m : Int, pyIntField ram = some m → 0 < m →
      shmSizeGb (pyIntField ram) = some (max 1 (m / 2)))
    ∧ (pyIntField ram = none → shmSizeGb (pyIntField ram) = none)
    ∧ (∀ m : Int, pyIntField ram = some m → m ≤ 0 → shmSizeGb (pyIntField ram) = none)
    ∧ shmSizeGb (pyIntField (some (.vInt 8))) = some 4
    ∧ shmSizeGb (pyIntField (some (.vInt 1))) = some 1
    ∧ shmSizeGb (pyIntField none) = none := by
  refine ⟨?_, ?_, ?_, rfl, rfl, rfl⟩
  · intro m hm hpos
    rw [hm]
    simp [shmSizeGb, hpos]
  · intro h
    rw [h]
    rfl
  · intro m hm hle
    rw [hm]
    simp only [shmSizeGb]
    rw [if_neg (by omega)]

/-- Witness for C4 at RAM = 8: the shared-memory size is
`max(1, 8 / 2) = 4`. -/
theorem c4_shm_size_witness :
    shmSizeGb (pyIntField (some (PyVal.vInt 8))) = some (max 1 ((8 : Int) / 2)) :=
  (c4_shm_size (some (PyVal.vInt 8))).1 8 (by rfl) (by norm_num)

/-- C5 (corrected, amended): the CPU-affinity string is the comma-join of
the `"start-end"` renderings of the two-element pairs, with non-pair
elements skipped — but only when every two-element pair parses; a parse
failure inside any two-element pair makes the whole affinity unset
(discarding earlier valid ranges), and the affinity is also unset when no
valid range results, including the empty or non-list cases.  In particular
`[(0,3),(8,11)]` yields `"0-3,8-11"` and an empty list yields unset. -/
theorem c5_cpu_affinity_amended :
    (∀ v, cpusetCpus v = cpusetSpec v)
    ∧ cpusetCpus (some (.vList [.vList [.vInt 0, .vInt 3], .vList [.vInt 8, .vInt 11]]))
        = some "0-3,8-11"
    ∧ cpusetCpus (some (.vList [])) = none
    ∧ cpusetCpus none = none := by
  refine ⟨?_, rfl, rfl, rfl⟩
  intro v
  rcases v with _ | w
  · rfl
  · cases w with
    | vNone => rfl
    | vInt n =>
      cases hb : (n != 0) <;> simp [cpusetCpus, cpusetSpec, pyTruthy, hb]
    | vStr s =>
      cases hb : (s != "") <;> simp [cpusetCpus, cpusetSpec, pyTruthy, hb]
    | vList xs =>
      rcases xs with _ | ⟨x, xs1⟩
      · rfl
      · simp only [cpusetCpus, cpusetSpec, pyTruthy, List.isEmpty_cons, Bool.not_false,
          if_true, buildRanges_eq]
        cases h3 : (x :: xs1).any (fun r => isPair2 r && (goodPair r).isNone) with
        | true => simp [h3]
        | false =>
          simp only [h3, if_false, Bool.false_eq_true]
          cases h4 : ((x :: xs1).filterMap goodPair).isEmpty <;> simp [h4]

/-- C5 counterexample: with ranges `[(0,3), ("x",5)]` the first pair parses
but the second aborts the whole derivation, so the code yields unset where
the claim demands `"0-3"`. -/
theorem c5_cpu_affinity_counterexample :
    cpusetCpus (some (.vList [.vList [.vInt 0, .vInt 3], .vList [.vStr "x", .vInt 5]])) = none
    ∧ (none : Option String) ≠ some "0-3" :=
  ⟨rfl, by decide⟩

/-- C6 (corrected, amended): the GPU device selector is unset exactly when
the defaulted `gpu_required` is zero (the code tests Python truthiness, so
a negative required count also enables the selector); when it is nonzero, a
supplied non-empty all-parsing index list yields the comma-join of the
indices, and an absent, empty, non-list or unparseable index list yields
`"all"`.  In particular `gpu_required=2, indices=[0,2]` gives `"0,2"`,
`gpu_required=1, indices=[]` gives `"all"`, and `gpu_required=0` gives
unset. -/
theorem c6_gpu_selector_amended :
    (∀ r i, gpusParam r i = gpusSpec r i)
    ∧ gpusParam (some 2) (some (.vList [.vInt 0, .vInt 2])) = some "0,2"
    ∧ gpusParam (some 1) (some (.vList [])) = some "all"
    ∧ gpusParam (some 0) none = none
    ∧ gpusParam none none = none := by
  refine ⟨?_, rfl, rfl, rfl, rfl⟩
  intro r i
  by_cases hr : r.getD 0 = 0
  · have hb : (r.getD 0 != 0) = false := by simp [hr]
    simp [gpusParam, gpusSpec, hr, hb]
  · have hb : (r.getD 0 != 0) = true := by simp [hr]
    rcases i with _ | w
    · simp [gpusParam, gpusSpec, pyTruthy, hr, hb, isListNonempty]
    · cases w with
      | vNone => simp [gpusParam, gpusSpec, pyTruthy, hr, hb, isListNonempty]
      | vInt n =>
        cases hv : (n != 0) <;>
          simp [gpusParam, gpusSpec, pyTruthy, hr, hb, hv, isListNonempty]
      | vStr s =>
        cases hv : (s != "") <;>
          simp [gpusParam, gpusSpec, pyTruthy, hr, hb, hv, isListNonempty]
      | vList xs =>
        rcases xs with _ | ⟨x, xs1⟩
        · simp [gpusParam, gpusSpec, pyTruthy, hr, hb, isListNonempty]
        · simp [gpusParam, gpusSpec, pyTruthy, hr, hb, isListNonempty]

/-- C6 counterexample: `gpu_required = -1` (not greater than zero) with no
index list yields selector `"all"`, where the claim demands unset. -/
theorem c6_gpu_selector_counterexample :
    gpusParam (some (-1)) none = some "all"
    ∧ ¬((-1 : Int) > 0)
    ∧ gpusParam (some (-1)) none ≠ none :=
  ⟨rfl, by norm_num, by decide⟩

/-- C7 (confirmed): the port-free assertions succeed exactly when every
requested host port passes the local bind test, and on failure the raised
error lists exactly the bound ports — all of them and no free one — for
both the mapping-based and the legacy two-port assertion. -/
theorem c7_port_assertion (e : Engine) (pm : List (Int × Int)) (sshPort jupPort : Int) :
    (assertPortMappingFree e pm = .ok () ↔ ∀ p ∈ pm.map Prod.fst, p ∉ e.boundPorts)
    ∧ (∀ bad, assertPortMappingFree e pm = .error (.portsInUse bad) →
        ∀ q : Int, q ∈ bad ↔ (q ∈ pm.map Prod.fst ∧ q ∈ e.boundPorts))
    ∧ (assertPortsFree e sshPort jupPort = .ok () ↔
        (sshPort ∉ e.boundPorts ∧ jupPort ∉ e.boundPorts))
    ∧ (∀ bad, assertPortsFree e sshPort jupPort = .error (.portsInUse bad) →
        ∀ q : Int, q ∈ bad ↔ ((q = sshPort ∨ q = jupPort) ∧ q ∈ e.boundPorts)) := by
  refine ⟨?_, ?_, ?_, ?_⟩
  · simp only [assertPortMappingFree]
    cases hE : ((pm.map Prod.fst).filter (fun p => decide (p ∈ e.boundPorts))).isEmpty with
    | true =>
      simp only [hE, if_true]
      simp only [List.isEmpty_iff, List.filter_eq_nil_iff, decide_eq_true_eq] at hE
      simpa using hE
    | false =>
      simp only [hE, Bool.false_eq_true, if_false]
      constructor
      · intro h
        exact absurd h (by simp)
      · intro h
        exfalso
        have hnil : (pm.map Prod.fst).filter (fun p => decide (p ∈ e.boundPorts)) = [] := by
          rw [List.filter_eq_nil_iff]
          intro a ha
          simpa using h a ha
        rw [hnil] at hE
        simp at hE
  · intro bad h q
    simp only [assertPortMappingFree] at h
    by_cases hE : ((pm.map Prod.fst).filter (fun p => decide (p ∈ e.boundPorts))).isEmpty
    · rw [if_pos hE] at h
      cases h
    · rw [if_neg hE] at h
      have hbad : (pm.map Prod.fst).filter (fun p => decide (p ∈ e.boundPorts)) = bad := by
        have := h
        injection this with h2
        injection h2
      rw [← hbad]
      simp [List.mem_filter]
  · by_cases h1 : sshPort ∈ e.boundPorts <;> by_cases h2 : jupPort ∈ e.boundPorts <;>
      simp [assertPortsFree, h1, h2]
  · intro bad h q
    by_cases h1 : sshPort ∈ e.boundPorts
    · by_cases h2 : jupPort ∈ e.boundPorts
      · have hv : assertPortsFree e sshPort jupPort =
            .error (.portsInUse [sshPort, jupPort]) := by
          simp [assertPortsFree, h1, h2]
        rw [hv] at h
        injection h with h3
        injection h3 with h4
        subst h4
        simp only [List.mem_cons, List.mem_singleton, List.not_mem_nil, or_false]
        constructor
        · rintro (rfl | rfl)
          · exact ⟨Or.inl rfl, h1⟩
          · exact ⟨Or.inr rfl, h2⟩
        · rintro ⟨rfl | rfl, hq⟩
          · exact Or.inl rfl
          · exact Or.inr rfl
      · have hv : assertPortsFree e sshPort jupPort = .error (.portsInUse [sshPort]) := by
          simp [assertPortsFree, h1, h2]
        rw [hv] at h
        injection h with h3
        injection h3 with h4
        subst h4
        simp only [List.mem_singleton]
        constructor
        · rintro rfl
          exact ⟨Or.inl rfl, h1⟩
        · rintro ⟨rfl | rfl, hq⟩
          · rfl
          · exact absurd hq h2
    · by_cases h2 : jupPort ∈ e.boundPorts
      · have hv : assertPortsFree e sshPort jupPort = .error (.portsInUse [jupPort]) := by
          simp [assertPortsFree, h1, h2]
        rw [hv] at h
        injection h with h3
        injection h3 with h4
        subst h4
        simp only [List.mem_singleton]
        constructor
        · rintro rfl
          exact ⟨Or.inr rfl, h2⟩
        · rintro ⟨rfl | rfl, hq⟩
          · exact absurd hq h1
          · rfl
      · have hv : assertPortsFree e sshPort jupPort = .ok () := by
          simp [assertPortsFree, h1, h2]
        rw [hv] at h
        cases h

/-- Witness for C7: with host port 5000 bound and 9001 free, the raised
error's port list contains 5000 and not 9001. -/
theorem c7_port_assertion_witness :
    ((5000 : Int) ∈ ([5000] : List Int) ↔
      (5000 : Int) ∈ ([(5000, 22), (9001, 80)] : List (Int × Int)).map Prod.fst
        ∧ (5000 : Int) ∈ eBound.boundPorts)
    ∧ ((9001 : Int) ∈ ([5000] : List Int) ↔
      (9001 : Int) ∈ ([(5000, 22), (9001, 80)] : List (Int × Int)).map Prod.fst
        ∧ (9001 : Int) ∈ eBound.boundPorts) := by
  have h := (c7_port_assertion eBound [(5000, 22), (9001, 80)] 0 0).2.1 [5000] (by rfl)
  exact ⟨h 5000, h 9001⟩

/-- C8 (confirmed): `stop_by_id` and `remove_by_id` return success for an
identifier whose container the engine reports as absent or not running
(already stopped/removed), and return failure exactly on genuine engine
errors (an unexpected error message or a raised exception around the
subprocess call); both are total classifications, so no exception reaches
the caller. -/
theorem c8_idempotent_stop_remove (s : ContainerState) (m : String) :
    (s ≠ .running →
      stopByIdReply (dockerStopReply s) = true ∧ removeByIdReply (dockerRmReply s) = true)
    ∧ stopByIdReply (dockerStopReply s) = true
    ∧ (removeByIdReply (dockerRmReply s) = false ↔ s = .running)
    ∧ stopByIdReply (.errOther m) = false
    ∧ removeByIdReply (.errOther m) = false
    ∧ stopByIdReply .raised = false
    ∧ removeByIdReply .raised = false := by
  cases s <;>
    simp [stopByIdReply, removeByIdReply, dockerStopReply, dockerRmReply]

/-- Witness for C8 at an absent container: both operations report
success. -/
theorem c8_idempotent_stop_remove_witness :
    stopByIdReply (dockerStopReply ContainerState.absent) = true
    ∧ removeByIdReply (dockerRmReply ContainerState.absent) = true :=
  (c8_idempotent_stop_remove ContainerState.absent "x").1 (by decide)

/-- C1 (corrected, amended): a repeated start on a task whose container is
already running is a no-op — the engine state is returned unchanged, so no
new container or volume is created — but the operation returns no instance
id (Python `None`) rather than the original engine-assigned id, in both
the port-mapping and the legacy start path. -/
theorem c1_repeated_start_amended (e : Engine) (name : String) (pm : List (Int × Int))
    (sshPort jupPort : Int) (image : String) (opts : RunOpts)
    (h : isRunningE e name = true) :
    startWithPortMappingE e name pm image opts = .ok (e, none)
    ∧ startLegacyE e name sshPort jupPort image opts = .ok (e, none) := by
  constructor <;> simp [startWithPortMappingE, startLegacyE, h]

/-- C1 counterexample: launching `task_1` on a fresh engine returns the
engine-assigned id `"cid_0"`; replaying the identical start while the
container is running creates nothing new but returns `None`, not
`"cid_0"` as the claim states. -/
theorem c1_repeated_start_counterexample :
    startWithPortMappingE e0 "task_1" [(5000, 22)] "img" optsP = .ok (eAfterC1, some "cid_0")
    ∧ startWithPortMappingE eAfterC1 "task_1" [(5000, 22)] "img" optsP = .ok (eAfterC1, none)
    ∧ (none : Option String) ≠ some "cid_0" :=
  ⟨rfl, rfl, by decide⟩

/-- Witness for C1 (amended) at the concrete running instance. -/
theorem c1_repeated_start_witness :
    startWithPortMappingE eAfterC1 "task_1" [(5000, 22)] "img" optsP = .ok (eAfterC1, none) :=
  (c1_repeated_start_amended eAfterC1 "task_1" [(5000, 22)] 0 0 "img" optsP (by rfl)).1

/-- C2 (confirmed): for a provisioning (start) task, each failure mode — a
missing `docker_image`, a missing SSH password in port-mapping mode,
missing SSH credentials in legacy mode, or any error raised during the
launch (ports in use, image unavailable) — makes `process_task` return no
result, and the polling loop then sends no status report for the task and
merely counts the failure; the catch-all keeps the process alive. -/
theorem c2_start_failure_dropped (t : Task) (e : Engine) (c : Nat)
    (hop : isControlOp (normalizeOp t.task_data.operation) = false) :
    (strTruthy t.task_data.docker_image = false → processTask t e = (e, none))
    ∧ (∀ pm, t.container_info.port_mapping = some pm → pm.isEmpty = false →
        strTruthy t.container_info.ssh_password = false → processTask t e = (e, none))
    ∧ ((t.container_info.port_mapping = none ∨ t.container_info.port_mapping = some []) →
        (strTruthy t.container_info.ssh_password
          && intOptTruthy t.container_info.ssh_port) = false →
        processTask t e = (e, none))
    ∧ (∀ err, processTaskCore t e = .error err → processTask t e = (e, none))
    ∧ ((processTask t e).2 = none →
        (pollCycle e c (.taskResp t)).reported = none
        ∧ (pollCycle e c (.taskResp t)).counter = c + 1) := by
  refine ⟨?_, ?_, ?_, ?_, ?_⟩
  · intro himg
    simp [processTask, processTaskCore, hop, himg]
  · intro pm hpm hne hpass
    cases himg : strTruthy t.task_data.docker_image with
    | false => simp [processTask, processTaskCore, hop, himg]
    | true =>
      simp [processTask, processTaskCore, startPmPath, hop, himg, hpm, hne, hpass]
  · intro hd hcred
    cases himg : strTruthy t.task_data.docker_image with
    | false => simp [processTask, processTaskCore, hop, himg]
    | true =>
      rcases hd with h | h <;>
        simp [processTask, processTaskCore, legacyPath, hop, himg, h, hcred]
  · intro err herr
    simp [processTask, herr]
  · intro h
    cases hh : processTask t e with
    | mk e1 r =>
      rw [hh] at h
      simp only at h
      subst h
      simp [pollCycle, hh]

/-- Witness for C2: the start task without a `docker_image` is dropped with
no result. -/
theorem c2_start_failure_dropped_witness : processTask tNoImg e0 = (e0, none) :=
  (c2_start_failure_dropped tNoImg e0 0 (by rfl)).1 (by rfl)

/-- C3 (corrected, amended): the counted poll-cycle failures (transport
errors, non-200 responses, invalid task data, a task whose processing
yields no result) increment the consecutive-error counter and wait
`backoffSleep` of the new counter — 60 seconds at or above the threshold
of 5, 10 seconds below it; a cycle whose 200-response body carries a
nonzero exception code also increments the counter but always waits 10
seconds, bypassing the backoff check; and the counter resets to zero, with
a 10-second wait, on a no-task cycle or on a cycle that obtains a
processing result. -/
theorem c3_backoff_amended (e : Engine) (c : Nat) (resp : PollResponse) :
    (countedFailure e resp = true →
      (pollCycle e c resp).counter = c + 1
      ∧ (pollCycle e c resp).sleepSecs = backoffSleep (c + 1))
    ∧ (∀ m, resp = .serverException m →
      (pollCycle e c resp).counter = c + 1 ∧ (pollCycle e c resp).sleepSecs = 10)
    ∧ ((resp = .noTask ∨ ∃ t e2 r, resp = .taskResp t ∧ processTask t e = (e2, some r)) →
      (pollCycle e c resp).counter = 0 ∧ (pollCycle e c resp).sleepSecs = 10)
    ∧ (c + 1 ≥ maxConsecutiveErrors → backoffSleep (c + 1) = 60)
    ∧ (c + 1 < maxConsecutiveErrors → backoffSleep (c + 1) = 10) := by
  refine ⟨?_, ?_, ?_, ?_, ?_⟩
  · intro hcf
    cases resp with
    | httpError n => simp [pollCycle]
    | invalidTask => simp [pollCycle]
    | timeout => simp [pollCycle]
    | connError => simp [pollCycle]
    | exn => simp [pollCycle]
    | serverException m => simp [countedFailure] at hcf
    | noTask => simp [countedFailure] at hcf
    | taskResp t =>
      cases hh : processTask t e with
      | mk e1 r =>
        simp only [countedFailure, hh, Option.isNone_iff_eq_none] at hcf
        subst hcf
        simp [pollCycle, hh]
  · intro m hm
    subst hm
    simp [pollCycle]
  · intro hok
    rcases hok with rfl | ⟨t, e2, r, rfl, hres⟩
    · simp [pollCycle, backoffSleep, maxConsecutiveErrors]
    · simp [pollCycle, hres, backoffSleep, maxConsecutiveErrors]
  · intro hge
    simp [backoffSleep, hge]
  · intro hlt
    simp [backoffSleep, Nat.not_le_of_lt hlt]

/-- C3 counterexample: five consecutive server-exception poll failures
drive the counter from 0 to 5, yet the fifth failing cycle still waits 10
seconds, not the 60 seconds the claim requires at the threshold. -/
theorem c3_backoff_counterexample :
    (pollCycle e0 0 (PollResponse.serverException "boom")).counter = 1
    ∧ (pollCycle e0 1 (PollResponse.serverException "boom")).counter = 2
    ∧ (pollCycle e0 2 (PollResponse.serverException "boom")).counter = 3
    ∧ (pollCycle e0 3 (PollResponse.serverException "boom")).counter = 4
    ∧ (pollCycle e0 4 (PollResponse.serverException "boom")).counter = 5
    ∧ (pollCycle e0 4 (PollResponse.serverException "boom")).sleepSecs = 10
    ∧ (pollCycle e0 4 (PollResponse.serverException "boom")).sleepSecs ≠ 60 :=
  ⟨rfl, rfl, rfl, rfl, rfl, rfl, by decide⟩

/-- Witness for C3 (amended): the fifth consecutive counted failure (an
HTTP 500 poll) does wait 60 seconds. -/
theorem c3_backoff_witness :
    (pollCycle e0 4 (PollResponse.httpError 500)).counter = 5
    ∧ (pollCycle e0 4 (PollResponse.httpError 500)).sleepSecs = 60 := by
  have h := c3_backoff_amended e0 4 (PollResponse.httpError 500)
  have h1 := h.1 (by rfl)
  exact ⟨h1.1, h1.2.trans (h.2.2.2.1 (by decide))⟩

/-- C9 (confirmed): a control task (`stop` or `stop_remove`) carrying no
truthy container identifier in either its task data or its connectivity
block makes `process_task` return — without raising — the failure
dictionary with `status = "failed"` and `error_message` exactly
`"Missing container_id in control task"`. -/
theorem c9_missing_container_id (t : Task) (e : Engine)
    (hop : isControlOp (normalizeOp t.task_data.operation) = true)
    (hcid : strTruthy (strOr t.task_data.container_id t.container_info.container_id) = false) :
    processTaskCore t e =
      .ok (e, some (failedMissingCid
        (strOr t.task_data.container_name t.container_info.container_name)))
    ∧ processTask t e =
      (e, some (failedMissingCid
        (strOr t.task_data.container_name t.container_info.container_name)))
    ∧ (failedMissingCid
        (strOr t.task_data.container_name t.container_info.container_name)).status = "failed"
    ∧ (failedMissingCid
        (strOr t.task_data.container_name t.container_info.container_name)).error_message
      = some "Missing container_id in control task" := by
  refine ⟨?_, ?_, rfl, rfl⟩
  · simp [processTaskCore, controlPath, hop, hcid]
  · simp [processTask, processTaskCore, controlPath, hop, hcid]

/-- Witness for C9 at a concrete `stop` task with no container id. -/
theorem c9_missing_container_id_witness :
    processTask tCtl e0 = (e0, some (failedMissingCid none)) :=
  (c9_missing_container_id tCtl e0 (by rfl) (by rfl)).2.1

/-- C10 (confirmed): a provisioning task in port-mapping mode whose mapping
has no entry with container port 22 still yields a successful result with
`status = "running"` in which both `ssh_port` and `ssh_command` are unset;
the launch is not blocked by the absence of an SSH port. -/
theorem c10_no_ssh_port_entry (t : Task) (e eOut : Engine) (pm : List (Int × Int))
    (cidOpt : Option String)
    (hop : isControlOp (normalizeOp t.task_data.operation) = false)
    (himg : strTruthy t.task_data.docker_image = true)
    (hpm : t.container_info.port_mapping = some pm)
    (hne : pm.isEmpty = false)
    (h22 : ∀ hp cp : Int, (hp, cp) ∈ pm → cp ≠ 22)
    (hpass : strTruthy t.container_info.ssh_password = true)
    (hstart : startWithPortMappingE e ("task_" ++ t.id) pm
        (t.task_data.docker_image.getD "") (runOptsOf t) = .ok (eOut, cidOpt)) :
    processTask t e = (eOut, some (pmResult t ("task_" ++ t.id) cidOpt none))
    ∧ (pmResult t ("task_" ++ t.id) cidOpt none).status = "running"
    ∧ (pmResult t ("task_" ++ t.id) cidOpt none).ssh_port = none
    ∧ (pmResult t ("task_" ++ t.id) cidOpt none).ssh_command = none := by
  have hfind : pm.find? (fun hc => hc.2 == 22) = none := by
    rw [List.find?_eq_none]
    intro x hx
    rcases x with ⟨hp, cp⟩
    simp only [beq_iff_eq]
    exact h22 hp cp hx
  refine ⟨?_, rfl, rfl, ?_⟩
  · simp [processTask, processTaskCore, startPmPath, hop, himg, hpm, hne, hpass, hstart,
      hfind]
  · simp [pmResult, intOptTruthy]

/-- Witness for C10: the concrete task with mapping `9000→8080` launches
and reports `running` with no SSH port or command. -/
theorem c10_no_ssh_port_entry_witness :
    processTask tPm e0 = (e7After, some (pmResult tPm "task_7" (some "cid_0") none))
    ∧ (pmResult tPm "task_7" (some "cid_0") none).ssh_port = none
    ∧ (pmResult tPm "task_7" (some "cid_0") none).ssh_command = none := by
  have h := c10_no_ssh_port_entry tPm e0 e7After [(9000, 8080)] (some "cid_0")
    (by rfl) (by rfl) (by rfl) (by rfl)
    (by intro hp cp hx; simp at hx; omega) (by rfl) (by rfl)
  exact ⟨h.1, h.2.2.1, h.2.2.2⟩

end GpuAgent
